import Mathlib

/-!
Verification of the follow-up dashboard (`followup_dashboard.py`).

The file shallowly embeds the program's domain logic and its thin
spreadsheet-adapter layer:

* string helpers mirroring the Python primitives `in`, `str.split`,
  `str.strip` and `int(...)` that `parse_days` relies on;
* `parse_days` and `calc_score` (the scoring core);
* `save_single_entry`, `load_log`, `delete_record` and the per-member save
  handler, over an explicit worksheet state (a list of rows);
* the trend chart's per-(date, group) mean of the stored `score` column.

Theorems after the definitions settle the specification's claims about
these functions.
-/

namespace Followup

/-! ## Python string primitives

`parse_days` uses `"No update for" in option`,
`option.split("for")[1].split("days")[0].strip()` and `int(...)`.
These are modelled on `List Char` with structural recursion so that every
definition evaluates in the kernel. -/

/-- Does `hay` start with `needle`? (`str.startswith`, used to locate
substring occurrences.) -/
def listStartsWith : List Char → List Char → Bool
  | _, [] => true
  | [], _ :: _ => false
  | a :: as, b :: bs => a == b && listStartsWith as bs

/-- The characters after the first occurrence of `sep` in `s`, or `none`
when `sep` does not occur.  For nonempty `sep`, `afterFirst sep s` is
`some` exactly when Python's `sep in s` holds, and the returned tail is
what follows `s.split(sep)[0]`. -/
def afterFirst (sep : List Char) : List Char → Option (List Char)
  | [] => if sep.isEmpty then some [] else none
  | c :: rest =>
    if listStartsWith (c :: rest) sep then some ((c :: rest).drop sep.length)
    else afterFirst sep rest

/-- Python's substring test `needle in hay`. -/
def pyContains (needle hay : List Char) : Bool :=
  (afterFirst needle hay).isSome

/-- The characters before the first occurrence of `sep` (the whole list
when `sep` does not occur): Python's `s.split(sep)[0]`. -/
def takeUntil (sep : List Char) : List Char → List Char
  | [] => []
  | c :: rest =>
    if listStartsWith (c :: rest) sep then []
    else c :: takeUntil sep rest

/-- Drop leading whitespace. -/
def stripLead : List Char → List Char
  | [] => []
  | c :: rest => if c.isWhitespace then stripLead rest else c :: rest

/-- Python's `str.strip()`: drop leading and trailing whitespace.
(Python also strips a few exotic Unicode space characters; the status
strings of this program only ever carry ASCII spaces.) -/
def pyStrip (cs : List Char) : List Char :=
  ((stripLead ((stripLead cs).reverse)).reverse)

/-- The value of a nonempty all-digit character run, `none` otherwise. -/
def digitsVal (cs : List Char) : Option Nat :=
  match cs with
  | [] => none
  | _ =>
    if cs.all Char.isDigit then
      some (cs.foldl (fun a c => a * 10 + (c.toNat - 48)) 0)
    else none

/-- Python's `int(s)` on an already-stripped string: an optional sign
followed by a nonempty digit run; `none` models the `ValueError` path.
(Python's `int` additionally accepts underscore digit separators and
non-ASCII digits; neither ever occurs in this program's status strings.) -/
def pyInt (cs : List Char) : Option Int :=
  match cs with
  | '-' :: rest => (digitsVal rest).map (fun n => -(n : Int))
  | '+' :: rest => (digitsVal rest).map (fun n => (n : Int))
  | _ => (digitsVal cs).map (fun n => (n : Int))

/-! ## Basic data of the dashboard -/

/-- The status vocabulary offered by both follow-up select boxes
(`FOLLOWUP_OPTIONS`). -/
def FOLLOWUP_OPTIONS : List String :=
  [ "Normal"
  , "Blank"
  , "Up to date (0 days)"
  , "No update for 2 days"
  , "No update for 3 days"
  , "No update for 4 days"
  , "No update for 5 days"
  ]

/-- `parse_days`: number of outstanding days encoded by a status string.
`"Normal"` gives 0, `"Blank"` gives 4; a string containing
`"No update for"` is parsed as
`int(option.split("for")[1].split("days")[0].strip())` with any parse
failure (including the `ValueError` from `int`) giving 0; anything else
gives 0. -/
def parse_days (option : String) : Int :=
  if option == "Normal" then 0
  else if option == "Blank" then 4
  else if pyContains "No update for".toList option.toList then
    match afterFirst "for".toList option.toList with
    | none => 0        -- IndexError path of split("for")[1], caught by except
    | some tail =>
      -- option.split("for")[1] is tail cut at the next "for"
      let part := takeUntil "days".toList (takeUntil "for".toList tail)
      match pyInt (pyStrip part) with
      | some n => n
      | none => 0      -- ValueError from int(...), caught by except
  else 0

/-- `calc_score`: the performance score of one entry, the negated maximum
of the two channels' outstanding days. -/
def calc_score (tech_option custom_option : String) : Int :=
  let days_tech := parse_days tech_option
  let days_custom := parse_days custom_option
  let max_days := max days_tech days_custom; -max_days

/-! ## Worksheet cells, entry dicts, and the write path -/

/-- A spreadsheet / DataFrame cell value.  The write path only produces
strings and integers; `na` is pandas' missing value (`pd.NA` / `NaN` /
`NaT`) and `ts` a pandas `Timestamp`, named by its `YYYY-MM-DD` day. -/
inductive CellV where
  | str (v : String)
  | int (v : Int)
  | na
  | ts (day : String)
deriving DecidableEq

/-- The Python value held in an entry dict's `date` slot: either a
`datetime.date` / `datetime.datetime` (carried as year, month, day), or any
other value, stood for by its `str(...)` image. -/
inductive DateField where
  | pyDate (y m d : Nat)
  | other (s : String)
deriving DecidableEq

/-- Zero-pad to two digits (`%m`, `%d`). -/
def pad2 (n : Nat) : String := if n < 10 then "0" ++ toString n else toString n

/-- Zero-pad to four digits (`%Y` as CPython formats it). -/
def pad4 (n : Nat) : String :=
  if n < 10 then "000" ++ toString n
  else if n < 100 then "00" ++ toString n
  else if n < 1000 then "0" ++ toString n
  else toString n

/-- The string `save_single_entry` stores in the `date` cell:
`d["date"].strftime("%Y-%m-%d")` for `date` / `datetime` values,
`str(d["date"])` for anything else. -/
def fmtDate : DateField → String
  | .pyDate y m d => pad4 y ++ "-" ++ pad2 m ++ "-" ++ pad2 d
  | .other s => s

/-- The entry dict passed to `save_single_entry`.  A `none` field models a
key absent from the Python dict.  (`score` is typed `Int`: the application
only ever stores the integer returned by `calc_score`, and `int(...)` of an
integer is the identity.) -/
structure EntryDict where
  date : Option DateField := none
  group : Option String := none
  member : Option String := none
  incident_number : Option String := none
  tech_followup : Option String := none
  custom_followup : Option String := none
  score : Option Int := none
deriving DecidableEq

/-- The seven-cell row `save_single_entry` builds from the entry dict.
The function reads `d["date"]` by subscript, so a dict without a `date`
key raises `KeyError`; every other field goes through `d.get(key, "")`
(empty string when absent), and the score through `int(d.get("score", 0))`. -/
def entry_row (entry : EntryDict) : Except String (List CellV) :=
  match entry.date with
  | none => .error "KeyError: date"
  | some dv =>
    .ok [ .str (fmtDate dv)
        , .str (entry.group.getD "")
        , .str (entry.member.getD "")
        , .str (entry.incident_number.getD "")
        , .str (entry.tech_followup.getD "")
        , .str (entry.custom_followup.getD "")
        , .int (entry.score.getD 0) ]

/-- gspread `Worksheet.append_row(row)`: one new row at the end. -/
def ws_append_row (sheet : List (List CellV)) (row : List CellV) : List (List CellV) :=
  sheet ++ [row]

/-- `save_single_entry(entry)` over an explicit worksheet state: serialize
the entry to its seven-cell row and append it. -/
def save_single_entry (sheet : List (List CellV)) (entry : EntryDict) :
    Except String (List (List CellV)) :=
  match entry_row entry with
  | .ok row => .ok (ws_append_row sheet row)
  | .error e => .error e

/-- gspread `Worksheet.delete_rows(start)` for a single row: removes the
1-based row `start` of the sheet (the header is row 1); the Sheets API
rejects an index outside the sheet's rows with an `APIError`. -/
def ws_delete_rows (sheet : List (List CellV)) (start : Int) :
    Except String (List (List CellV)) :=
  if 1 ≤ start ∧ start ≤ (sheet.length : Int) then
    .ok (sheet.eraseIdx (start - 1).toNat)
  else .error "APIError: row index out of range"

/-- `delete_record(idx_in_df)`: targets sheet row `idx_in_df + 2` (index 0
is the first data row, just below the header) and catches every exception,
turning it into a warning.  Returns the new worksheet state and the warning,
if any. -/
def delete_record (sheet : List (List CellV)) (idx_in_df : Int) :
    List (List CellV) × Option String :=
  let sheet_row := idx_in_df + 2
  match ws_delete_rows sheet sheet_row with
  | .ok s2 => (s2, none)
  | .error e => (sheet, some ("删除记录时出错：" ++ e))

/-! ## The read path: `load_log` as a DataFrame model

`ws.get_all_records()` returns one dict per data row, keyed by the header
row.  A DataFrame is modelled by its column list and its rows kept as such
dicts; a cell is looked up by column name, defaulting to `na` — exactly
pandas' value for a field the record does not carry. -/

/-- One record of `ws.get_all_records()` / one DataFrame row. -/
abbrev Record := List (String × CellV)

/-- A pandas DataFrame: column names plus rows as keyed records. -/
structure Frame where
  cols : List String
  rows : List Record
deriving DecidableEq

/-- The seven base columns of the log sheet. -/
def base_cols : List String :=
  ["date", "group", "member", "incident_number", "tech_followup",
   "custom_followup", "score"]

/-- Append to `acc` the keys of `ks` not already present, in order: the
column ordering of `pd.DataFrame.from_records` and of the
`if c not in df.columns` fill-in loop. -/
def dedupAppend (acc : List String) (ks : List String) : List String :=
  ks.foldl (fun a k => if k ∈ a then a else a ++ [k]) acc

/-- Columns of `pd.DataFrame.from_records(rs)`: record keys in order of
first appearance. -/
def recordCols (rs : List Record) : List String :=
  rs.foldl (fun a r => dedupAppend a (r.map Prod.fst)) []

/-- Is `s` of the `YYYY-MM-DD` shape written by `save_single_entry`? -/
def isIsoDay (s : String) : Bool :=
  match s.toList with
  | [y1, y2, y3, y4, '-', m1, m2, '-', d1, d2] =>
    [y1, y2, y3, y4, m1, m2, d1, d2].all Char.isDigit
  | _ => false

/-- `pd.to_datetime(cell, errors="coerce")`, restricted to the cell shapes
this sheet produces: the `YYYY-MM-DD` strings written by `save_single_entry`
parse to a timestamp, missing values stay missing (`NaT`), and anything
unparsable coerces to `NaT` instead of raising.  (pandas also accepts other
date formats and reads raw integers as epoch offsets; neither shape reaches
the `date` column of this sheet.) -/
def pdToDatetime : CellV → CellV
  | .str s => if isIsoDay s then .ts s else .na
  | .ts s => .ts s
  | _ => .na

/-- `df["date"] = pd.to_datetime(df["date"], errors="coerce")`, on one row. -/
def coerceDate (r : Record) : Record :=
  r.map (fun p => if p.1 == "date" then (p.1, pdToDatetime p.2) else p)

/-- `load_log()`.  The argument is the outcome of `ws.get_all_records()`:
`.error` when the backend read raised.  A failed read is caught, shown as a
sidebar warning and replaced by no records; no records yield an empty frame
with the seven base columns; otherwise the frame is built from the records,
missing base columns are filled in with `pd.NA`, and the `date` column is
coerced to datetimes. -/
def load_log (readResult : Except String (List Record)) : Frame :=
  let records := match readResult with
    | .ok rs => rs
    | .error _ => []
  if records.isEmpty then
    { cols := base_cols, rows := [] }
  else
    { cols := dedupAppend (recordCols records) base_cols
    , rows := records.map coerceDate }

/-- The cell of frame `f` at row `i`, column `c`; a field the row does not
carry is `na`. -/
def Frame.cell (f : Frame) (i : Nat) (c : String) : CellV :=
  match f.rows.get? i with
  | some r => (List.lookup c r).getD .na
  | none => .na

/-! ## The chart and the save handler -/

/-- The `(date, group, score)` cells of a row: all the chart reads. -/
def chartView (r : Record) : CellV × CellV × CellV :=
  ((List.lookup "date" r).getD .na,
   (List.lookup "group" r).getD .na,
   (List.lookup "score" r).getD .na)

/-- The numeric content of a cell, if any. -/
def cellInt : CellV → Option Int
  | .int i => some i
  | _ => none

/-- The value the trend chart plots for one `(date, group)` key:
`chart_src.groupby(["date", "group"])["score"].mean()` — the mean of the
stored `score` cells of the matching rows (pandas' mean skips missing
values; `groupby` never produces an empty group, where the rational
division would read 0 for pandas' NaN). -/
def chartMeanScore (rows : List Record) (d g : CellV) : ℚ :=
  let sel := rows.filter (fun r =>
    ((List.lookup "date" r).getD .na == d) &&
    ((List.lookup "group" r).getD .na == g))
  let scores := (sel.map (fun r => (List.lookup "score" r).getD .na)).filterMap cellInt
  (scores.map (fun i => (i : ℚ))).sum / (scores.length : ℚ)

/-- The entry dict assembled by the per-member save handler when its 保存
button is pressed: all seven keys are present and `score` is `calc_score`
of the two selected statuses, computed at creation time. -/
def submit_entry (record_date : DateField) (group_name mem incident : String)
    (tech_follow custom_follow : String) : EntryDict :=
  { date := some record_date
  , group := some group_name
  , member := some mem
  , incident_number := some incident
  , tech_followup := some tech_follow
  , custom_followup := some custom_follow
  , score := some (calc_score tech_follow custom_follow) }

/-- `chartMeanScore` re-expressed over the `(date, group, score)` views of
the rows; used to show the chart reads nothing but those three cells. -/
def chartOfViews (views : List (CellV × CellV × CellV)) (d g : CellV) : ℚ :=
  let sel := views.filter (fun v => v.1 == d && v.2.1 == g)
  let scores := (sel.map (fun v => v.2.2)).filterMap cellInt
  (scores.map (fun i => (i : ℚ))).sum / (scores.length : ℚ)

end Followup

namespace Followup

/-! ## Sanity examples for the scoring core -/

example : parse_days "Normal" = 0 := by decide
example : parse_days "No update for 2 days" = 2 := by decide
example : parse_days "Blank" = 4 := by decide
example : parse_days "Up to date (0 days)" = 0 := by decide
example : parse_days "No update for 7 days" = 7 := by decide
example : parse_days "garbage" = 0 := by decide
example : calc_score "No update for 3 days" "No update for 5 days" = -5 := by decide

/-! ## Claims about the scoring core -/

/-- C1: for every pair of status strings, `calc_score` returns exactly the
negation of the larger of the two channels' `parse_days` values. -/
theorem calc_score_eq_neg_max_days (tech custom : String) :
    calc_score tech custom = -(max (parse_days tech) (parse_days custom)) := rfl

/-- C2: on the seven vocabulary status codes, `parse_days` returns exactly
the day table of the specification: Normal 0, Up to date 0, the four
"No update for N days" codes their N, and Blank the fixed sentinel 4. -/
theorem parse_days_vocabulary_table :
    parse_days "Normal" = 0 ∧
    parse_days "Up to date (0 days)" = 0 ∧
    parse_days "No update for 2 days" = 2 ∧
    parse_days "No update for 3 days" = 3 ∧
    parse_days "No update for 4 days" = 4 ∧
    parse_days "No update for 5 days" = 5 ∧
    parse_days "Blank" = 4 := by decide

/-- C3 counterexample: `"No update for 7 days"` is not one of the seven
vocabulary codes, yet `parse_days` returns 7 on it, not 0 — the
"No update for N days" pattern is parsed numerically for every N. -/
theorem parse_days_nonvocab_counterexample :
    "No update for 7 days" ∉ FOLLOWUP_OPTIONS ∧
    parse_days "No update for 7 days" = 7 ∧ (7 : Int) ≠ 0 := by decide

/-- C3 amended: for every string that is not a vocabulary code and does not
contain the substring `"No update for"`, `parse_days` returns 0 (the
function is total, so no input raises). -/
theorem parse_days_nonvocab_eq_zero (s : String)
    (hvocab : s ∉ FOLLOWUP_OPTIONS)
    (hsub : pyContains "No update for".toList s.toList = false) :
    parse_days s = 0 := by
  have h1 : s ≠ "Normal" := by
    intro h; exact hvocab (by rw [h]; decide)
  have h2 : s ≠ "Blank" := by
    intro h; exact hvocab (by rw [h]; decide)
  simp only [String.toList] at hsub
  simp [parse_days, h1, h2, hsub]

/-- C3 amended, witnessed at `"hello"`. -/
theorem parse_days_nonvocab_eq_zero_witness : parse_days "hello" = 0 :=
  parse_days_nonvocab_eq_zero "hello" (by decide) (by decide)

/-- C4 counterexample: raising the customer channel from `"Normal"`
(0 days) to `"No update for 3 days"` (3 days) while the tech channel sits
at 5 days leaves the score unchanged at -5 — replacing a channel by a
strictly worse status does not always strictly decrease the score. -/
theorem calc_score_strict_mono_counterexample :
    parse_days "Normal" < parse_days "No update for 3 days" ∧
    ¬ calc_score "No update for 5 days" "No update for 3 days"
        < calc_score "No update for 5 days" "Normal" := by decide

/-- C4 amended: replacing either channel's status by one with a strictly
higher days-outstanding value never increases the score, and strictly
decreases it whenever the new value also exceeds the other channel's
days-outstanding value. -/
theorem calc_score_mono (tech custom custom2 : String)
    (h : parse_days custom < parse_days custom2) :
    (calc_score tech custom2 ≤ calc_score tech custom ∧
      (parse_days tech < parse_days custom2 →
        calc_score tech custom2 < calc_score tech custom)) ∧
    (calc_score custom2 tech ≤ calc_score custom tech ∧
      (parse_days tech < parse_days custom2 →
        calc_score custom2 tech < calc_score custom tech)) := by
  have key : ∀ a b b' : Int, b < b' →
      (-(max a b') ≤ -(max a b) ∧ (a < b' → -(max a b') < -(max a b))) := by
    intro a b b' hbb
    constructor
    · exact neg_le_neg (max_le_max le_rfl hbb.le)
    · intro ha
      exact neg_lt_neg (lt_of_lt_of_le (max_lt ha hbb) (le_max_right a b'))
  have k1 := key (parse_days tech) (parse_days custom) (parse_days custom2) h
  refine ⟨⟨k1.1, k1.2⟩, ?_, ?_⟩
  · show -(max (parse_days custom2) (parse_days tech)) ≤
        -(max (parse_days custom) (parse_days tech))
    rw [max_comm (parse_days custom2), max_comm (parse_days custom)]
    exact k1.1
  · intro ht
    show -(max (parse_days custom2) (parse_days tech)) <
        -(max (parse_days custom) (parse_days tech))
    rw [max_comm (parse_days custom2), max_comm (parse_days custom)]
    exact k1.2 ht

/-- C4 amended, witnessed: worsening the customer channel past the tech
channel strictly lowers the score. -/
theorem calc_score_mono_witness :
    calc_score "Normal" "No update for 5 days"
      < calc_score "Normal" "No update for 2 days" :=
  (calc_score_mono "Normal" "No update for 2 days" "No update for 5 days"
    (by decide)).1.2 (by decide)

/-- C5: over the vocabulary the score is never positive, is zero exactly
when both channels parse to 0 outstanding days, and never drops below -5. -/
theorem calc_score_range_vocab (a b : String)
    (ha : a ∈ FOLLOWUP_OPTIONS) (hb : b ∈ FOLLOWUP_OPTIONS) :
    calc_score a b ≤ 0 ∧
    (calc_score a b = 0 ↔ parse_days a = 0 ∧ parse_days b = 0) ∧
    -5 ≤ calc_score a b := by
  fin_cases ha <;> fin_cases hb <;> decide

/-- C5 witnessed at `("Blank", "Normal")`. -/
theorem calc_score_range_vocab_witness :
    calc_score "Blank" "Normal" ≤ 0 ∧
    (calc_score "Blank" "Normal" = 0 ↔
      parse_days "Blank" = 0 ∧ parse_days "Normal" = 0) ∧
    -5 ≤ calc_score "Blank" "Normal" :=
  calc_score_range_vocab "Blank" "Normal" (by decide) (by decide)

/-! ## Helper lemmas for the adapter claims -/

/-- The chart's per-key mean factors through the `(date, group, score)`
views of the rows. -/
lemma chartMeanScore_eq (rows : List Record) (d g : CellV) :
    chartMeanScore rows d g = chartOfViews (rows.map chartView) d g := by
  simp only [chartMeanScore, chartOfViews, List.filter_map, List.map_map]
  rfl

/-- `dedupAppend` keeps every element of the accumulator. -/
lemma mem_dedupAppend_left (ks : List String) :
    ∀ (acc : List String) (c : String), c ∈ acc → c ∈ dedupAppend acc ks := by
  induction ks with
  | nil => intro acc c h; exact h
  | cons k ks ih =>
    intro acc c h
    have hstep : c ∈ (if k ∈ acc then acc else acc ++ [k]) := by
      split
      · exact h
      · exact List.mem_append_left _ h
    simpa [dedupAppend, List.foldl_cons] using ih _ c hstep

/-- `dedupAppend` contains every appended key. -/
lemma mem_dedupAppend_right (ks : List String) :
    ∀ (acc : List String) (c : String), c ∈ ks → c ∈ dedupAppend acc ks := by
  induction ks with
  | nil => intro acc c h; cases h
  | cons k ks ih =>
    intro acc c h
    rcases List.mem_cons.mp h with rfl | h'
    · have hk : c ∈ (if c ∈ acc then acc else acc ++ [c]) := by
        split
        · assumption
        · exact List.mem_append_right _ (by simp)
      simpa [dedupAppend, List.foldl_cons] using mem_dedupAppend_left ks _ c hk
    · simpa [dedupAppend, List.foldl_cons] using ih _ c h'

/-- Coercing the `date` column does not create a field the row lacked. -/
lemma lookup_coerceDate_none (c : String) (r : Record)
    (h : List.lookup c r = none) : List.lookup c (coerceDate r) = none := by
  induction r with
  | nil => rfl
  | cons p r ih =>
    obtain ⟨k, v⟩ := p
    cases hck : (c == k) with
    | true => simp [List.lookup, hck] at h
    | false =>
      simp only [List.lookup, hck] at h
      have hh := ih h
      simp only [coerceDate, List.map_cons]
      by_cases hkd : ((k, v).1 == "date") = true
      · rw [if_pos hkd]
        simp only [List.lookup, hck]
        exact hh
      · rw [if_neg hkd]
        simp only [List.lookup, hck]
        exact hh

/-- `load_log` on a nonempty record list: the frame's columns are the
record keys completed with the base columns, its rows the records with the
`date` field coerced. -/
lemma load_log_ok_cons (r : Record) (rs' : List Record) :
    load_log (.ok (r :: rs')) =
      ⟨dedupAppend (recordCols (r :: rs')) base_cols,
        (r :: rs').map coerceDate⟩ := rfl

/-- Closed form of `delete_record`: either the addressed row (sheet row
`idx + 2`, list index `idx + 1`) is removed, or nothing changes and the
backend error is turned into the warning. -/
lemma delete_record_eq (sheet : List (List CellV)) (idx : Int) :
    delete_record sheet idx =
      if 1 ≤ idx + 2 ∧ idx + 2 ≤ (sheet.length : Int) then
        (sheet.eraseIdx (idx + 1).toNat, none)
      else
        (sheet, some ("删除记录时出错：" ++ "APIError: row index out of range")) := by
  by_cases hb : 1 ≤ idx + 2 ∧ idx + 2 ≤ (sheet.length : Int)
  · rw [if_pos hb]
    show (match ws_delete_rows sheet (idx + 2) with
          | Except.ok s2 => (s2, none)
          | Except.error e => (sheet, some ("删除记录时出错：" ++ e))) =
        (sheet.eraseIdx (idx + 1).toNat, none)
    unfold ws_delete_rows
    rw [if_pos hb, show idx + 2 - 1 = idx + 1 from by ring]
  · rw [if_neg hb]
    show (match ws_delete_rows sheet (idx + 2) with
          | Except.ok s2 => (s2, none)
          | Except.error e => (sheet, some ("删除记录时出错：" ++ e))) = _
    unfold ws_delete_rows
    rw [if_neg hb]

/-! ## Claims about the adapter layer -/

/-- C6: an entry coming out of the save handler carries
`-max(days(tech), days(custom))` as its score, the saved sheet row stores
exactly that integer, and the trend chart's per-(date, group) value is a
function of the stored `(date, group, score)` cells alone — the score is
never recomputed from the statuses of a stored row. -/
theorem entry_score_invariant :
    (∀ (rd : DateField) (g m i t c : String),
      (submit_entry rd g m i t c).score =
        some (-(max (parse_days t) (parse_days c)))) ∧
    (∀ (sheet : List (List CellV)) (rd : DateField) (g m i t c : String),
      save_single_entry sheet (submit_entry rd g m i t c) =
        .ok (sheet ++ [[CellV.str (fmtDate rd), CellV.str g, CellV.str m,
          CellV.str i, CellV.str t, CellV.str c,
          CellV.int (-(max (parse_days t) (parse_days c)))]])) ∧
    (∀ (rows1 rows2 : List Record) (d g : CellV),
      rows1.map chartView = rows2.map chartView →
      chartMeanScore rows1 d g = chartMeanScore rows2 d g) := by
  refine ⟨fun _ _ _ _ _ _ => rfl, fun _ _ _ _ _ _ _ => rfl, ?_⟩
  intro rows1 rows2 d g h
  rw [chartMeanScore_eq, chartMeanScore_eq, h]

/-- C6 witnessed: two stored rows agreeing on `(date, group, score)` but
with different members and statuses chart identically — the chart reads the
stored score, not a recomputation. -/
theorem entry_score_invariant_witness :
    chartMeanScore
      [[("date", CellV.ts "2024-03-07"), ("group", CellV.str "The First Group"),
        ("member", CellV.str "Desiree"), ("tech_followup", CellV.str "Normal"),
        ("custom_followup", CellV.str "Normal"), ("score", CellV.int (-3))]]
      (CellV.ts "2024-03-07") (CellV.str "The First Group") =
    chartMeanScore
      [[("date", CellV.ts "2024-03-07"), ("group", CellV.str "The First Group"),
        ("member", CellV.str "Jessica Dollins"), ("tech_followup", CellV.str "Blank"),
        ("custom_followup", CellV.str "Blank"), ("score", CellV.int (-3))]]
      (CellV.ts "2024-03-07") (CellV.str "The First Group") :=
  entry_score_invariant.2.2 _ _ _ _ (by decide)

set_option maxHeartbeats 2000000 in
/-- C7: `load_log` never raises — a failed backend read and an empty
backend both yield the empty frame over the seven base columns; on any
record list the frame carries all base columns and one row per record, and
a field a record lacks loads as `na` rather than failing. -/
theorem load_log_error_tolerant :
    (∀ e : String, load_log (.error e) = ⟨base_cols, []⟩) ∧
    load_log (.ok []) = ⟨base_cols, []⟩ ∧
    (∀ (rs : List Record) (c : String), c ∈ base_cols →
      c ∈ (load_log (.ok rs)).cols) ∧
    (∀ rs : List Record, (load_log (.ok rs)).rows.length = rs.length) ∧
    (∀ (rs : List Record) (i : Nat) (c : String), c ∈ base_cols →
      (∀ r, rs.get? i = some r → List.lookup c r = none) →
      (load_log (.ok rs)).cell i c = CellV.na) := by
  refine ⟨fun _ => rfl, rfl, ?_, ?_, ?_⟩
  · intro rs c hc
    cases rs with
    | nil => exact hc
    | cons r rs' =>
      rw [load_log_ok_cons]
      exact mem_dedupAppend_right base_cols _ c hc
  · intro rs
    cases rs with
    | nil => rfl
    | cons r rs' =>
      rw [load_log_ok_cons]
      simp
  · intro rs i c _ hnone
    cases rs with
    | nil => rfl
    | cons r rs' =>
      rw [load_log_ok_cons]
      unfold Frame.cell
      rw [List.get?_map]
      cases hg : (r :: rs').get? i with
      | none => rfl
      | some row =>
        have hl := lookup_coerceDate_none c row (hnone row hg)
        simp [hl]

/-- C7 witnessed: a failing read loads as the empty base frame, and a
record without a `score` field loads that field as `na`. -/
theorem load_log_error_tolerant_witness :
    load_log (.error "network down") = ⟨base_cols, []⟩ ∧
    (load_log (.ok [[("group", CellV.str "g1")]])).cell 0 "score" = CellV.na :=
  ⟨load_log_error_tolerant.1 "network down",
   load_log_error_tolerant.2.2.2.2 [[("group", CellV.str "g1")]] 0 "score"
     (by decide) (by intro r hr; cases hr; decide)⟩

/-- C8: `delete_record` fails softly — addressing a sheet row that does not
exist leaves the worksheet untouched and surfaces the backend error as a
warning, and in every case the worksheet either is unchanged or loses
exactly the addressed row. -/
theorem delete_record_soft_fail (sheet : List (List CellV)) (idx : Int) :
    (¬ (1 ≤ idx + 2 ∧ idx + 2 ≤ (sheet.length : Int)) →
      delete_record sheet idx =
        (sheet, some ("删除记录时出错：" ++ "APIError: row index out of range"))) ∧
    ((delete_record sheet idx).1 = sheet ∨
      (delete_record sheet idx).1 = sheet.eraseIdx (idx + 1).toNat) := by
  by_cases hb : 1 ≤ idx + 2 ∧ idx + 2 ≤ (sheet.length : Int)
  · rw [delete_record_eq, if_pos hb]
    exact ⟨fun hc => absurd hb hc, Or.inr rfl⟩
  · rw [delete_record_eq, if_neg hb]
    exact ⟨fun _ => rfl, Or.inl rfl⟩

/-- C8 witnessed: deleting identifier 5 from a sheet holding only its
header row warns and changes nothing. -/
theorem delete_record_soft_fail_witness :
    delete_record [[CellV.str "date"]] 5 =
      ([[CellV.str "date"]],
        some ("删除记录时出错：" ++ "APIError: row index out of range")) :=
  (delete_record_soft_fail [[CellV.str "date"]] 5).1 (by decide)

/-- C9: on a worksheet made of a header row followed by data rows,
identifier `i` deletes exactly the `(i+1)`-th data row — physical sheet
row `i + 2` — so identifier 0 removes the first data row, just below the
header. -/
theorem delete_record_targets_row (hdr : List CellV) (data : List (List CellV))
    (i : Nat) (h : i < data.length) :
    delete_record (hdr :: data) (i : Int) = (hdr :: data.eraseIdx i, none) := by
  have hb : 1 ≤ (i : Int) + 2 ∧ (i : Int) + 2 ≤ (((hdr :: data).length : Nat) : Int) := by
    simp only [List.length_cons]
    omega
  rw [delete_record_eq, if_pos hb]
  have h2 : ((i : Int) + 1).toNat = i + 1 := by omega
  rw [h2, List.eraseIdx_cons_succ]

/-- C9 witnessed: identifier 0 deletes the first data row (sheet row 2). -/
theorem delete_record_targets_row_witness :
    delete_record [[CellV.str "header"], [CellV.str "row0"], [CellV.str "row1"]] 0 =
      ([[CellV.str "header"], [CellV.str "row1"]], none) :=
  delete_record_targets_row [CellV.str "header"]
    [[CellV.str "row0"], [CellV.str "row1"]] 0 (by decide)

/-- C10 counterexample: an entry dict without a `date` key is not
serialized to a row at all — `save_single_entry` reads `d["date"]` by
subscript and raises `KeyError`, appending nothing. -/
theorem save_missing_date_counterexample :
    save_single_entry [] {} = Except.error "KeyError: date" := rfl

/-- C10 amended: for every entry dict that carries a `date` value,
`save_single_entry` appends exactly one row of exactly seven cells in
header order; each absent non-date field serializes as the empty string,
the score cell is the integer coercion of the score (0 when absent), and
the date cell holds the `YYYY-MM-DD` rendering of a date / datetime value
or the stringification of any other value.  (A dict without a `date` key
instead raises `KeyError` and appends nothing.) -/
theorem save_single_entry_row_shape (sheet : List (List CellV))
    (entry : EntryDict) (dv : DateField) (hdate : entry.date = some dv) :
    save_single_entry sheet entry =
      .ok (sheet ++ [[ CellV.str (fmtDate dv)
                     , CellV.str (entry.group.getD "")
                     , CellV.str (entry.member.getD "")
                     , CellV.str (entry.incident_number.getD "")
                     , CellV.str (entry.tech_followup.getD "")
                     , CellV.str (entry.custom_followup.getD "")
                     , CellV.int (entry.score.getD 0) ]]) ∧
    (∀ y m d, fmtDate (DateField.pyDate y m d) =
      pad4 y ++ "-" ++ pad2 m ++ "-" ++ pad2 d) ∧
    (∀ s, fmtDate (DateField.other s) = s) := by
  refine ⟨?_, fun _ _ _ => rfl, fun _ => rfl⟩
  simp [save_single_entry, entry_row, hdate, ws_append_row]

/-- C10 amended, witnessed on a dict missing its incident, tech and custom
fields. -/
theorem save_single_entry_row_shape_witness :
    save_single_entry []
      { date := some (DateField.pyDate 2024 3 7)
      , group := some "The First Group"
      , member := some "Desiree"
      , score := some (-4) } =
      Except.ok [[ CellV.str "2024-03-07", CellV.str "The First Group",
        CellV.str "Desiree", CellV.str "", CellV.str "", CellV.str "",
        CellV.int (-4) ]] :=
  (save_single_entry_row_shape [] _ (DateField.pyDate 2024 3 7) rfl).1

end Followup
